import Mathlib

/-!
# openflagr: `pkg/config/config.go`

A shallow embedding of the telemetry bootstrap of `pkg/config/config.go`
(`setupStatsd`, `setupNewrelic`, `setupPrometheus`, `setupOpenTelemetry`) and
theorems about it.

Modelling conventions.

* The package variables `Global` and the process-wide registries of the
  OpenTelemetry library (`otel.SetTracerProvider`, `otel.SetTextMapPropagator`,
  `otel.SetMeterProvider`) are fields of an explicit `World`, passed through
  every function.
* A Go pointer or interface value is an `Option`: `none` is `nil`.
* The constructors of third-party libraries that return `(value, err)` are
  fields of `Externals`: each returns `Except String _`, where `.error e` is a
  non-nil `err` and `.ok v` is a nil `err` together with a non-nil value.
  The outcome of every such call is arbitrary.
* Every call of a third-party constructor is appended to `World.calls`, every
  logrus line to `World.logs`, so that "was not invoked" is a statement about
  the world after the run.
* A function returns `Except String World`: `.ok w` is a normal return in
  world `w`, `.error msg` is a Go `panic(msg)` written in `config.go`.
* The constructors of `promauto` return no error: they register the vector
  with `prometheus.DefaultRegisterer` and panic when the registration fails.
  The names registered there are the field `World.promRegistry`, and
  `setupPrometheus` returns `Except (String × World) World`, where
  `.error (msg, w)` is that panic, raised in world `w`.
-/

namespace OpenFlagr

/-! ## Values of the third-party libraries -/

/-- An option of `otlptracegrpc.New` and of `otlpmetricgrpc.New`. -/
inductive GrpcOption where
  | WithEndpoint (endpoint : String)
  | WithInsecure
  deriving DecidableEq, Repr

/-- The value `resource.New` returns: the attributes of the emitting service. -/
structure Resource where
  attributes : List (String × String)
  deriving DecidableEq, Repr

/-- A non-nil `sdktrace.SpanExporter`, as returned by an exporter constructor. -/
structure SpanExporter where
  handle : Nat
  deriving DecidableEq, Repr

/-- A non-nil `sdkmetric.Exporter`, as returned by an exporter constructor. -/
structure MetricExporter where
  handle : Nat
  deriving DecidableEq, Repr

/-- The samplers of `sdktrace`; `config.go` uses `sdktrace.AlwaysSample()`. -/
inductive Sampler where
  | AlwaysSample
  | NeverSample
  deriving DecidableEq, Repr

/-- A span processor: `sdktrace.NewBatchSpanProcessor(exporter)`. -/
inductive SpanProcessor where
  | batch (exporter : SpanExporter)
  deriving DecidableEq, Repr

/-- A metric reader: `sdkmetric.NewPeriodicReader(exporter)`. -/
inductive Reader where
  | periodic (exporter : MetricExporter)
  deriving DecidableEq, Repr

/-- The target of `*sdktrace.TracerProvider`. -/
structure TracerProvider where
  resource : Resource
  sampler : Sampler
  spanProcessors : List SpanProcessor
  deriving DecidableEq, Repr

/-- The target of `*sdkmetric.MeterProvider`. -/
structure MeterProvider where
  resource : Resource
  readers : List Reader
  deriving DecidableEq, Repr

/-- A `trace.Tracer`: the result of `tracerProvider.Tracer(name)`. -/
structure Tracer where
  provider : TracerProvider
  name : String
  deriving DecidableEq, Repr

/-- A `metric.Meter`: the result of `meterProvider.Meter(name)`. -/
structure Meter where
  provider : MeterProvider
  name : String
  deriving DecidableEq, Repr

/-- A non-nil `metric.Int64Counter`. -/
structure Int64Counter where
  handle : Nat
  deriving DecidableEq, Repr

/-- A non-nil `metric.Float64Histogram`. -/
structure Float64Histogram where
  handle : Nat
  deriving DecidableEq, Repr

/-- The members of a `propagation.NewCompositeTextMapPropagator`. -/
inductive Propagator where
  | TraceContext
  | Baggage
  deriving DecidableEq, Repr

/-- The target of `*prometheus.CounterVec`: its options and label names. -/
structure CounterVec where
  Name : String
  Help : String
  labels : List String
  deriving DecidableEq, Repr

/-- The target of `*prometheus.HistogramVec`: its options and label names. -/
structure HistogramVec where
  Name : String
  Help : String
  labels : List String
  deriving DecidableEq, Repr

/-- The target of `*statsd.Client`. -/
structure StatsdClient where
  addr : String
  Namespace : String
  deriving DecidableEq, Repr

/-- The `newrelic.Config` fields that `setupNewrelic` sets. -/
structure NewrelicConfig where
  AppName : String
  License : String
  Enabled : Bool
  DistributedTracerEnabled : Bool
  CrossApplicationTracerEnabled : Bool
  deriving DecidableEq, Repr

/-- A non-nil `newrelic.Application`. -/
structure NewrelicApplication where
  config : NewrelicConfig
  deriving DecidableEq, Repr

/-! ## The configuration and the package state -/

/-- Modelled from the spec: the declaration of the package variable `Config`,
which is in a file of the package other than `config.go`. The fields are the
ones the modelled functions read, under the names `config.go` uses; the
telemetry options are the booleans and strings of the configuration table of
the specification, the others have the type their use in `config.go`
requires. -/
structure Config where
  StatsdEnabled : Bool
  StatsdHost : String
  StatsdPort : String
  StatsdPrefix : String
  NewRelicEnabled : Bool
  NewRelicAppName : String
  NewRelicKey : String
  NewRelicDistributedTracingEnabled : Bool
  PrometheusEnabled : Bool
  PrometheusPath : String
  PrometheusIncludeLatencyHistogram : Bool
  OpenTelemetryEnabled : Bool
  OpenTelemetryServiceName : String
  OpenTelemetryTracesEnabled : Bool
  OpenTelemetryMetricsEnabled : Bool
  OpenTelemetryExporterType : String
  OpenTelemetryExporterEndpoint : String
  OpenTelemetryExporterInsecure : Bool
  deriving DecidableEq, Repr

/-- The struct `prometheusMetrics`. -/
structure prometheusMetrics where
  ScrapePath : String := ""
  EvalCounter : Option CounterVec := none
  RequestCounter : Option CounterVec := none
  RequestHistogram : Option HistogramVec := none
  deriving DecidableEq, Repr

/-- The struct `openTelemetryMetrics`. -/
structure openTelemetryMetrics where
  TracerProvider : Option TracerProvider := none
  MeterProvider : Option MeterProvider := none
  Tracer : Option Tracer := none
  Meter : Option Meter := none
  EvalCounter : Option Int64Counter := none
  RequestCounter : Option Int64Counter := none
  RequestLatency : Option Float64Histogram := none
  deriving DecidableEq, Repr

/-- The type of the package variable `Global`. -/
structure GlobalVars where
  NewrelicApp : Option NewrelicApplication := none
  StatsdClient : Option StatsdClient := none
  Prometheus : prometheusMetrics := {}
  OpenTelemetry : openTelemetryMetrics := {}
  deriving DecidableEq, Repr

/-- The process-wide registries of the `otel` package. `none` is the state in
which no provider or propagator has been installed. -/
structure OtelGlobals where
  tracerProvider : Option TracerProvider := none
  textMapPropagator : Option (List Propagator) := none
  meterProvider : Option MeterProvider := none
  deriving DecidableEq, Repr

/-- A call of a third-party constructor made by `config.go`. -/
inductive Call where
  | statsdNew (addr : String)
  | newrelicNewApplication (cfg : NewrelicConfig)
  | promautoNewCounterVec (name : String)
  | promautoNewHistogramVec (name : String)
  | resourceNew (serviceName : String)
  | otlptracegrpcNew (timeoutSeconds : Nat) (opts : List GrpcOption)
  | stdouttraceNew
  | otlpmetricgrpcNew (timeoutSeconds : Nat) (opts : List GrpcOption)
  | stdoutmetricNew
  | NewTracerProvider (res : Resource) (sampler : Sampler)
  | NewBatchSpanProcessor (exporter : SpanExporter)
  | NewMeterProvider (res : Resource) (readers : List Reader)
  | NewPeriodicReader (exporter : MetricExporter)
  | Int64Counter (name description : String)
  | Float64Histogram (name description : String)
  deriving DecidableEq, Repr

/-- The call constructs a resource. -/
def Call.isResource : Call → Bool
  | .resourceNew _ => true
  | _ => false

/-- The call is a trace-exporter constructor (otlp or stdout). -/
def Call.isTraceExporter : Call → Bool
  | .otlptracegrpcNew _ _ => true
  | .stdouttraceNew => true
  | _ => false

/-- The call is a metric-exporter constructor (otlp or stdout). -/
def Call.isMetricExporter : Call → Bool
  | .otlpmetricgrpcNew _ _ => true
  | .stdoutmetricNew => true
  | _ => false

/-- The call is an exporter constructor of either signal kind. -/
def Call.isExporter (c : Call) : Bool :=
  c.isTraceExporter || c.isMetricExporter

/-- The call constructs a trace or metric provider, or a processor or reader
to attach to one. -/
def Call.isProvider : Call → Bool
  | .NewTracerProvider _ _ => true
  | .NewBatchSpanProcessor _ => true
  | .NewMeterProvider _ _ => true
  | .NewPeriodicReader _ => true
  | _ => false

/-- The call creates an instrument. -/
def Call.isInstrument : Call → Bool
  | .Int64Counter _ _ => true
  | .Float64Histogram _ _ => true
  | _ => false

/-- The level of a logrus line. -/
inductive LogLevel where
  | error
  | info
  deriving DecidableEq, Repr

/-- A logrus line: level, message and the value of the field `err`. -/
structure LogEntry where
  level : LogLevel
  msg : String
  err : Option String
  deriving DecidableEq, Repr

/-- The state the functions of `config.go` read and write. The field
`promRegistry` holds the fully-qualified names of the collectors registered
with `prometheus.DefaultRegisterer`. -/
structure World where
  Global : GlobalVars := {}
  otel : OtelGlobals := {}
  promRegistry : List String := []
  calls : List Call := []
  logs : List LogEntry := []
  deriving DecidableEq, Repr

/-- Record a call of a third-party constructor. -/
def World.call (w : World) (c : Call) : World :=
  { w with calls := w.calls ++ [c] }

/-- The effect of `logrus.WithField("err", err).Error(msg)`, and of
`logrus.Errorf` when `err` is `none`. -/
def World.logError (w : World) (msg : String) (err : Option String) : World :=
  { w with logs := w.logs ++ [⟨.error, msg, err⟩] }

/-- The effect of `logrus.Info(msg)`. -/
def World.logInfo (w : World) (msg : String) : World :=
  { w with logs := w.logs ++ [⟨.info, msg, none⟩] }

/-- Assign `Global.OpenTelemetry`. -/
def World.setOT (w : World) (h : openTelemetryMetrics) : World :=
  { w with Global := { w.Global with OpenTelemetry := h } }

/-- Assign `Global.Prometheus`. -/
def World.setProm (w : World) (p : prometheusMetrics) : World :=
  { w with Global := { w.Global with Prometheus := p } }

/-- The registration a `promauto` constructor makes: `MustRegister` on
`prometheus.DefaultRegisterer`. A collector whose fully-qualified name is
already registered is refused and `MustRegister` panics with the error;
otherwise the name is added. -/
def World.mustRegister (w : World) (name : String) : Except (String × World) World :=
  if name ∈ w.promRegistry then
    .error ("duplicate metrics collector registration attempted", w)
  else
    .ok { w with promRegistry := w.promRegistry ++ [name] }

/-- The calls made since the world `w0`. -/
def World.callsSince (w w0 : World) : List Call :=
  w.calls.drop w0.calls.length

/-- The outcomes of the third-party constructors that can fail. -/
structure Externals where
  statsdNew : String → Except String StatsdClient
  newrelicNewApplication : NewrelicConfig → Except String NewrelicApplication
  resourceNew : String → Except String Resource
  otlptracegrpcNew : List GrpcOption → Except String SpanExporter
  stdouttraceNew : Except String SpanExporter
  otlpmetricgrpcNew : List GrpcOption → Except String MetricExporter
  stdoutmetricNew : Except String MetricExporter
  Int64Counter : Meter → String → String → Except String Int64Counter
  Float64Histogram : Meter → String → String → Except String Float64Histogram

/-- The pair `(value, err)` a Go constructor returns: `value` is nil when
`err` is not. -/
def goPair {α : Type} (r : Except String α) : Option α × Option String :=
  match r with
  | .ok v => (some v, none)
  | .error e => (none, some e)

/-- How a block of a function body ends: control falls through to the next
statement (`next`), or a `return` statement was executed (`ret`). -/
inductive Flow where
  | next (w : World)
  | ret (w : World)
  deriving DecidableEq, Repr

/-! ## The functions of `config.go` -/

/-- The function `setupStatsd`. -/
def setupStatsd (cfg : Config) (ext : Externals) (w : World) : Except String World :=
  if cfg.StatsdEnabled then
    let addr := cfg.StatsdHost ++ ":" ++ cfg.StatsdPort
    let w := w.call (.statsdNew addr)
    match ext.statsdNew addr with
    | .error err => .error ("unable to initialize statsd. " ++ err)
    | .ok client =>
      let client := { client with Namespace := cfg.StatsdPrefix }
      .ok { w with Global := { w.Global with StatsdClient := some client } }
  else
    .ok w

/-- The function `setupNewrelic`. -/
def setupNewrelic (cfg : Config) (ext : Externals) (w : World) : Except String World :=
  if cfg.NewRelicEnabled then
    let nCfg : NewrelicConfig :=
      { AppName := cfg.NewRelicAppName
        License := cfg.NewRelicKey
        Enabled := true
        DistributedTracerEnabled := cfg.NewRelicDistributedTracingEnabled
        CrossApplicationTracerEnabled := !cfg.NewRelicDistributedTracingEnabled }
    let w := w.call (.newrelicNewApplication nCfg)
    match ext.newrelicNewApplication nCfg with
    | .error err => .error ("unable to initialize newrelic. " ++ err)
    | .ok app => .ok { w with Global := { w.Global with NewrelicApp := some app } }
  else
    .ok w

/-- The function `setupPrometheus`. Each `promauto` constructor builds the
vector and registers it; when the registration panics the assignment of the
field it was called for, and everything after it, is not executed. -/
def setupPrometheus (cfg : Config) (w : World) : Except (String × World) World :=
  if cfg.PrometheusEnabled then
    let w := w.setProm { w.Global.Prometheus with ScrapePath := cfg.PrometheusPath }
    let w := w.call (.promautoNewCounterVec "flagr_eval_results")
    match w.mustRegister "flagr_eval_results" with
    | .error p => .error p
    | .ok w =>
      let evalCounter : CounterVec :=
        { Name := "flagr_eval_results"
          Help := "A counter of eval results"
          labels := ["EntityType", "FlagID", "FlagKey", "VariantID", "VariantKey"] }
      let w := w.setProm { w.Global.Prometheus with EvalCounter := some evalCounter }
      let w := w.call (.promautoNewCounterVec "flagr_requests_total")
      match w.mustRegister "flagr_requests_total" with
      | .error p => .error p
      | .ok w =>
        let requestCounter : CounterVec :=
          { Name := "flagr_requests_total"
            Help := "The total http requests received"
            labels := ["status", "path", "method"] }
        let w := w.setProm { w.Global.Prometheus with RequestCounter := some requestCounter }
        if cfg.PrometheusIncludeLatencyHistogram then
          let w := w.call (.promautoNewHistogramVec "flagr_requests_buckets")
          match w.mustRegister "flagr_requests_buckets" with
          | .error p => .error p
          | .ok w =>
            let requestHistogram : HistogramVec :=
              { Name := "flagr_requests_buckets"
                Help := "A histogram of latencies for requests received"
                labels := ["status", "path", "method"] }
            .ok (w.setProm { w.Global.Prometheus with RequestHistogram := some requestHistogram })
        else
          .ok w
  else
    .ok w

/-- The options `setupOpenTelemetry` passes to the two OTLP constructors:
the endpoint, and `WithInsecure` when the insecure flag is set. -/
def otlpOpts (cfg : Config) : List GrpcOption :=
  [GrpcOption.WithEndpoint cfg.OpenTelemetryExporterEndpoint] ++
    (if cfg.OpenTelemetryExporterInsecure then [GrpcOption.WithInsecure] else [])

/-- The `switch` on the exporter type in the trace block of
`setupOpenTelemetry`: the world after the constructor call and the variables
`traceExporter` and `err`; `none` is the `default` case. -/
def traceExporterSwitch (cfg : Config) (ext : Externals) (w : World) :
    Option (World × Option SpanExporter × Option String) :=
  if cfg.OpenTelemetryExporterType = "otlp" then
    some (w.call (.otlptracegrpcNew 5 (otlpOpts cfg)), goPair (ext.otlptracegrpcNew (otlpOpts cfg)))
  else if cfg.OpenTelemetryExporterType = "stdout" then
    some (w.call .stdouttraceNew, goPair ext.stdouttraceNew)
  else if cfg.OpenTelemetryExporterType = "none" then
    some (w, none, none)
  else
    none

/-- The statements of the trace block of `setupOpenTelemetry` from
`// Create trace provider` to the end of the block: the provider is built,
the batch span processor is registered when `traceExporter` is not nil, the
provider and the propagator are installed in `otel`, and the provider and its
tracer are stored in `Global.OpenTelemetry`. -/
def publishTraces (res : Resource) (traceExporter : Option SpanExporter) (w : World) : World :=
  let w := w.call (.NewTracerProvider res .AlwaysSample)
  let tracerProvider : TracerProvider :=
    { resource := res, sampler := .AlwaysSample, spanProcessors := [] }
  let (w, tracerProvider) :=
    match traceExporter with
    | some exporter =>
      (w.call (.NewBatchSpanProcessor exporter),
        { tracerProvider with
          spanProcessors := tracerProvider.spanProcessors ++ [SpanProcessor.batch exporter] })
    | none => (w, tracerProvider)
  let w := { w with otel := { w.otel with tracerProvider := some tracerProvider } }
  let w := { w with otel := { w.otel with
    textMapPropagator := some [Propagator.TraceContext, Propagator.Baggage] } }
  let w := w.setOT { w.Global.OpenTelemetry with TracerProvider := some tracerProvider }
  w.setOT { w.Global.OpenTelemetry with
    Tracer := some { provider := tracerProvider, name := "flagr" } }

/-- The block `if Config.OpenTelemetryTracesEnabled { ... }` of
`setupOpenTelemetry`, with the resource `res` in scope. -/
def setupTraces (cfg : Config) (ext : Externals) (res : Resource) (w : World) : Flow :=
  if cfg.OpenTelemetryTracesEnabled then
    match traceExporterSwitch cfg ext w with
    | none =>
      .ret (w.logError ("unsupported OpenTelemetry exporter type: " ++ cfg.OpenTelemetryExporterType) none)
    | some (w, _, some err) =>
      .ret (w.logError "failed to create OpenTelemetry trace exporter" (some err))
    | some (w, traceExporter, none) =>
      .next (publishTraces res traceExporter w)
  else
    .next w

/-- The `switch` on the exporter type in the metric block of
`setupOpenTelemetry`: the world after the constructor call and the variables
`metricExporter` and `err`; `none` is the `default` case. -/
def metricExporterSwitch (cfg : Config) (ext : Externals) (w : World) :
    Option (World × Option MetricExporter × Option String) :=
  if cfg.OpenTelemetryExporterType = "otlp" then
    some (w.call (.otlpmetricgrpcNew 5 (otlpOpts cfg)), goPair (ext.otlpmetricgrpcNew (otlpOpts cfg)))
  else if cfg.OpenTelemetryExporterType = "stdout" then
    some (w.call .stdoutmetricNew, goPair ext.stdoutmetricNew)
  else if cfg.OpenTelemetryExporterType = "none" then
    some (w, none, none)
  else
    none

/-- The statements under `// Create metrics` of `setupOpenTelemetry`: the
three instrument creations against `Global.OpenTelemetry.Meter`, here `m`. -/
def createMetrics (ext : Externals) (m : Meter) (w : World) : World :=
  let w := w.call (.Int64Counter "flagr_eval_results" "A counter of eval results")
  let w :=
    match ext.Int64Counter m "flagr_eval_results" "A counter of eval results" with
    | .error err => w.logError "failed to create OpenTelemetry eval counter" (some err)
    | .ok evalCounter => w.setOT { w.Global.OpenTelemetry with EvalCounter := some evalCounter }
  let w := w.call (.Int64Counter "flagr_requests_total" "The total http requests received")
  let w :=
    match ext.Int64Counter m "flagr_requests_total" "The total http requests received" with
    | .error err => w.logError "failed to create OpenTelemetry request counter" (some err)
    | .ok requestCounter =>
      w.setOT { w.Global.OpenTelemetry with RequestCounter := some requestCounter }
  let w := w.call (.Float64Histogram "flagr_requests_duration_seconds"
    "A histogram of latencies for requests received")
  match ext.Float64Histogram m "flagr_requests_duration_seconds"
      "A histogram of latencies for requests received" with
  | .error err =>
    w.logError "failed to create OpenTelemetry request latency histogram" (some err)
  | .ok requestLatency =>
    w.setOT { w.Global.OpenTelemetry with RequestLatency := some requestLatency }

/-- The statements of the metric block of `setupOpenTelemetry` from
`// Create meter provider` to the end of the block: the provider is built
(a second time, with a periodic reader, when `metricExporter` is not nil),
installed in `otel` and stored with its meter in `Global.OpenTelemetry`, and
the three instruments are created. -/
def publishMetrics (ext : Externals) (res : Resource) (metricExporter : Option MetricExporter)
    (w : World) : World :=
  let w := w.call (.NewMeterProvider res [])
  let meterProvider : MeterProvider := { resource := res, readers := [] }
  let (w, meterProvider) :=
    match metricExporter with
    | some exporter =>
      let w := w.call (.NewPeriodicReader exporter)
      let reader := Reader.periodic exporter
      (w.call (.NewMeterProvider res [reader]),
        ({ resource := res, readers := [reader] } : MeterProvider))
    | none => (w, meterProvider)
  let w := { w with otel := { w.otel with meterProvider := some meterProvider } }
  let w := w.setOT { w.Global.OpenTelemetry with MeterProvider := some meterProvider }
  let meter : Meter := { provider := meterProvider, name := "flagr" }
  let w := w.setOT { w.Global.OpenTelemetry with Meter := some meter }
  createMetrics ext meter w

/-- The block `if Config.OpenTelemetryMetricsEnabled { ... }` of
`setupOpenTelemetry`, with the resource `res` in scope. -/
def setupMetrics (cfg : Config) (ext : Externals) (res : Resource) (w : World) : Flow :=
  if cfg.OpenTelemetryMetricsEnabled then
    match metricExporterSwitch cfg ext w with
    | none =>
      .ret (w.logError ("unsupported OpenTelemetry exporter type: " ++ cfg.OpenTelemetryExporterType) none)
    | some (w, _, some err) =>
      .ret (w.logError "failed to create OpenTelemetry metric exporter" (some err))
    | some (w, metricExporter, none) =>
      .next (publishMetrics ext res metricExporter w)
  else
    .next w

/-- The function `setupOpenTelemetry`. -/
def setupOpenTelemetry (cfg : Config) (ext : Externals) (w : World) : Except String World :=
  if !cfg.OpenTelemetryEnabled then
    .ok w
  else
    let w := w.call (.resourceNew cfg.OpenTelemetryServiceName)
    match ext.resourceNew cfg.OpenTelemetryServiceName with
    | .error err => .ok (w.logError "failed to create OpenTelemetry resource" (some err))
    | .ok res =>
      match setupTraces cfg ext res w with
      | .ret w => .ok w
      | .next w =>
        match setupMetrics cfg ext res w with
        | .ret w => .ok w
        | .next w => .ok (w.logInfo "OpenTelemetry setup completed")

/-! ## Vocabulary of the statements -/

/-- The value of a field after `v, err := create(); if err != nil { log } else
{ field = v }`, when the field held `old` before. -/
def assigned {α : Type} (r : Except String α) (old : Option α) : Option α :=
  match r with
  | .ok v => some v
  | .error _ => old

/-- The trace provider `publishTraces` builds. -/
def tracerProviderOf (res : Resource) (traceExporter : Option SpanExporter) : TracerProvider :=
  { resource := res
    sampler := .AlwaysSample
    spanProcessors := match traceExporter with
      | some exporter => [SpanProcessor.batch exporter]
      | none => [] }

/-- The meter provider `publishMetrics` stores. -/
def meterProviderOf (res : Resource) (metricExporter : Option MetricExporter) : MeterProvider :=
  { resource := res
    readers := match metricExporter with
      | some exporter => [Reader.periodic exporter]
      | none => [] }

/-- The three instrument creations of `createMetrics`, in order. -/
def instrumentCalls : List Call :=
  [Call.Int64Counter "flagr_eval_results" "A counter of eval results",
   Call.Int64Counter "flagr_requests_total" "The total http requests received",
   Call.Float64Histogram "flagr_requests_duration_seconds"
     "A histogram of latencies for requests received"]

/-- The exporter type is one of the three values the `switch` statements name. -/
def supportedExporterType (cfg : Config) : Prop :=
  cfg.OpenTelemetryExporterType = "otlp" ∨ cfg.OpenTelemetryExporterType = "stdout" ∨
    cfg.OpenTelemetryExporterType = "none"

/-- The trace-exporter constructor that the exporter type selects returns no
error (the type `none` selects no constructor). -/
def traceExporterOk (cfg : Config) (ext : Externals) : Prop :=
  (cfg.OpenTelemetryExporterType = "otlp" → ∃ x, ext.otlptracegrpcNew (otlpOpts cfg) = .ok x) ∧
  (cfg.OpenTelemetryExporterType = "stdout" → ∃ x, ext.stdouttraceNew = .ok x)

/-- The metric-exporter constructor that the exporter type selects returns no
error (the type `none` selects no constructor). -/
def metricExporterOk (cfg : Config) (ext : Externals) : Prop :=
  (cfg.OpenTelemetryExporterType = "otlp" → ∃ x, ext.otlpmetricgrpcNew (otlpOpts cfg) = .ok x) ∧
  (cfg.OpenTelemetryExporterType = "stdout" → ∃ x, ext.stdoutmetricNew = .ok x)

/-- Consistency of a handle: a tracer exactly when a trace provider, a meter
exactly when a meter provider, an instrument only with a meter provider. -/
def Consistent (h : openTelemetryMetrics) : Prop :=
  (h.Tracer.isSome ↔ h.TracerProvider.isSome) ∧
  (h.Meter.isSome ↔ h.MeterProvider.isSome) ∧
  (h.EvalCounter.isSome → h.MeterProvider.isSome) ∧
  (h.RequestCounter.isSome → h.MeterProvider.isSome) ∧
  (h.RequestLatency.isSome → h.MeterProvider.isSome)

/-- A finite sequence of runs of `setupOpenTelemetry`, each under its own
configuration and constructor outcomes. -/
def runs : List (Config × Externals) → World → Except String World
  | [], w => .ok w
  | (cfg, ext) :: rest, w =>
    match setupOpenTelemetry cfg ext w with
    | .ok w' => runs rest w'
    | .error msg => .error msg

/-! ## Sample inputs -/

/-- Externals under which every constructor succeeds. -/
def okExternals : Externals where
  statsdNew := fun addr => .ok { addr := addr, Namespace := "" }
  newrelicNewApplication := fun c => .ok { config := c }
  resourceNew := fun name => .ok { attributes := [("service.name", name)] }
  otlptracegrpcNew := fun _ => .ok { handle := 1 }
  stdouttraceNew := .ok { handle := 2 }
  otlpmetricgrpcNew := fun _ => .ok { handle := 3 }
  stdoutmetricNew := .ok { handle := 4 }
  Int64Counter := fun _ name _ => .ok { handle := name.length }
  Float64Histogram := fun _ name _ => .ok { handle := name.length }

/-- A configuration with every switch off and the exporter type `none`. -/
def offConfig : Config where
  StatsdEnabled := false
  StatsdHost := "127.0.0.1"
  StatsdPort := "8125"
  StatsdPrefix := "flagr."
  NewRelicEnabled := false
  NewRelicAppName := "flagr"
  NewRelicKey := ""
  NewRelicDistributedTracingEnabled := false
  PrometheusEnabled := false
  PrometheusPath := "/metrics"
  PrometheusIncludeLatencyHistogram := false
  OpenTelemetryEnabled := false
  OpenTelemetryServiceName := "flagr"
  OpenTelemetryTracesEnabled := false
  OpenTelemetryMetricsEnabled := false
  OpenTelemetryExporterType := "none"
  OpenTelemetryExporterEndpoint := "localhost:4317"
  OpenTelemetryExporterInsecure := true

/-- The configuration `offConfig` with OpenTelemetry switched on for the two
signal kinds given and the exporter type `ty`. -/
def otConfig (traces metrics : Bool) (ty : String) : Config :=
  { offConfig with
    OpenTelemetryEnabled := true
    OpenTelemetryTracesEnabled := traces
    OpenTelemetryMetricsEnabled := metrics
    OpenTelemetryExporterType := ty }

/-- A handle in which every field is present, as left by an earlier run. -/
def fullHandle : openTelemetryMetrics where
  TracerProvider := some { resource := { attributes := [] }, sampler := .AlwaysSample, spanProcessors := [] }
  MeterProvider := some { resource := { attributes := [] }, readers := [] }
  Tracer := some { provider := { resource := { attributes := [] }, sampler := .AlwaysSample, spanProcessors := [] }, name := "old" }
  Meter := some { provider := { resource := { attributes := [] }, readers := [] }, name := "old" }
  EvalCounter := some { handle := 100 }
  RequestCounter := some { handle := 101 }
  RequestLatency := some { handle := 102 }

/-- A world whose `Global.OpenTelemetry` is `fullHandle`. -/
def fullWorld : World :=
  { Global := { OpenTelemetry := fullHandle } }

/-- Externals under which both trace-exporter constructors fail and every
other constructor succeeds. -/
def traceExporterFails : Externals :=
  { okExternals with
    otlptracegrpcNew := fun _ => .error "context deadline exceeded"
    stdouttraceNew := .error "stdout closed" }

/-- Externals under which `resource.New` fails. -/
def resourceFails : Externals :=
  { okExternals with resourceNew := fun _ => .error "invalid attribute" }

/-- Externals under which the creation of the request counter fails and every
other constructor succeeds. -/
def requestCounterFails : Externals :=
  { okExternals with
    Int64Counter := fun _ name _ =>
      if name = "flagr_requests_total" then .error "invalid instrument name"
      else .ok { handle := name.length } }

/-! ## Lemmas on the blocks of `setupOpenTelemetry` -/

theorem assigned_none {α : Type} (r : Except String α) : assigned r none = r.toOption := by
  cases r <;> rfl

theorem createMetrics_Global (ext : Externals) (m : Meter) (w : World) :
    (createMetrics ext m w).Global =
      { w.Global with
        OpenTelemetry :=
          { w.Global.OpenTelemetry with
            EvalCounter := assigned
              (ext.Int64Counter m "flagr_eval_results" "A counter of eval results")
              w.Global.OpenTelemetry.EvalCounter
            RequestCounter := assigned
              (ext.Int64Counter m "flagr_requests_total" "The total http requests received")
              w.Global.OpenTelemetry.RequestCounter
            RequestLatency := assigned
              (ext.Float64Histogram m "flagr_requests_duration_seconds"
                "A histogram of latencies for requests received")
              w.Global.OpenTelemetry.RequestLatency } } := by
  unfold createMetrics
  cases ext.Int64Counter m "flagr_eval_results" "A counter of eval results" <;>
  cases ext.Int64Counter m "flagr_requests_total" "The total http requests received" <;>
  cases ext.Float64Histogram m "flagr_requests_duration_seconds"
    "A histogram of latencies for requests received" <;>
  simp [World.call, World.logError, World.setOT, assigned]

theorem createMetrics_otel (ext : Externals) (m : Meter) (w : World) :
    (createMetrics ext m w).otel = w.otel := by
  unfold createMetrics
  cases ext.Int64Counter m "flagr_eval_results" "A counter of eval results" <;>
  cases ext.Int64Counter m "flagr_requests_total" "The total http requests received" <;>
  cases ext.Float64Histogram m "flagr_requests_duration_seconds"
    "A histogram of latencies for requests received" <;>
  simp [World.call, World.logError, World.setOT]

theorem createMetrics_calls (ext : Externals) (m : Meter) (w : World) :
    (createMetrics ext m w).calls = w.calls ++ instrumentCalls := by
  unfold createMetrics
  cases ext.Int64Counter m "flagr_eval_results" "A counter of eval results" <;>
  cases ext.Int64Counter m "flagr_requests_total" "The total http requests received" <;>
  cases ext.Float64Histogram m "flagr_requests_duration_seconds"
    "A histogram of latencies for requests received" <;>
  simp [World.call, World.logError, World.setOT, instrumentCalls]

theorem publishTraces_Global (res : Resource) (x : Option SpanExporter) (w : World) :
    (publishTraces res x w).Global =
      { w.Global with
        OpenTelemetry :=
          { w.Global.OpenTelemetry with
            TracerProvider := some (tracerProviderOf res x)
            Tracer := some { provider := tracerProviderOf res x, name := "flagr" } } } := by
  cases x <;> simp [publishTraces, World.call, World.setOT, tracerProviderOf]

theorem publishTraces_otel (res : Resource) (x : Option SpanExporter) (w : World) :
    (publishTraces res x w).otel =
      { w.otel with
        tracerProvider := some (tracerProviderOf res x)
        textMapPropagator := some [Propagator.TraceContext, Propagator.Baggage] } := by
  cases x <;> simp [publishTraces, World.call, World.setOT, tracerProviderOf]

theorem publishTraces_calls (res : Resource) (x : Option SpanExporter) (w : World) :
    (publishTraces res x w).calls =
      w.calls ++ Call.NewTracerProvider res .AlwaysSample ::
        (match x with
          | some exporter => [Call.NewBatchSpanProcessor exporter]
          | none => []) := by
  cases x <;> simp [publishTraces, World.call, World.setOT]

theorem publishTraces_logs (res : Resource) (x : Option SpanExporter) (w : World) :
    (publishTraces res x w).logs = w.logs := by
  cases x <;> simp [publishTraces, World.call, World.setOT]

theorem publishMetrics_Global (ext : Externals) (res : Resource) (x : Option MetricExporter)
    (w : World) :
    (publishMetrics ext res x w).Global =
      { w.Global with
        OpenTelemetry :=
          { w.Global.OpenTelemetry with
            MeterProvider := some (meterProviderOf res x)
            Meter := some { provider := meterProviderOf res x, name := "flagr" }
            EvalCounter := assigned
              (ext.Int64Counter { provider := meterProviderOf res x, name := "flagr" }
                "flagr_eval_results" "A counter of eval results")
              w.Global.OpenTelemetry.EvalCounter
            RequestCounter := assigned
              (ext.Int64Counter { provider := meterProviderOf res x, name := "flagr" }
                "flagr_requests_total" "The total http requests received")
              w.Global.OpenTelemetry.RequestCounter
            RequestLatency := assigned
              (ext.Float64Histogram { provider := meterProviderOf res x, name := "flagr" }
                "flagr_requests_duration_seconds"
                "A histogram of latencies for requests received")
              w.Global.OpenTelemetry.RequestLatency } } := by
  cases x <;>
  simp [publishMetrics, createMetrics_Global, World.call, World.setOT, meterProviderOf]

theorem publishMetrics_otel (ext : Externals) (res : Resource) (x : Option MetricExporter)
    (w : World) :
    (publishMetrics ext res x w).otel =
      { w.otel with meterProvider := some (meterProviderOf res x) } := by
  cases x <;>
  simp [publishMetrics, createMetrics_otel, World.call, World.setOT, meterProviderOf]

theorem publishMetrics_calls (ext : Externals) (res : Resource) (x : Option MetricExporter)
    (w : World) :
    (publishMetrics ext res x w).calls =
      w.calls ++ Call.NewMeterProvider res [] ::
        ((match x with
          | some exporter =>
            [Call.NewPeriodicReader exporter, Call.NewMeterProvider res [Reader.periodic exporter]]
          | none => []) ++ instrumentCalls) := by
  cases x <;>
  simp [publishMetrics, createMetrics_calls, World.call, World.setOT]

/-- The three ways the trace block ends; which one is decided by the
configuration and the constructor outcomes alone. -/
theorem setupTraces_cases (cfg : Config) (ext : Externals) (res : Resource) :
    (cfg.OpenTelemetryTracesEnabled = false ∧ ∀ w, setupTraces cfg ext res w = .next w) ∨
    (cfg.OpenTelemetryTracesEnabled = true ∧
      (¬ supportedExporterType cfg ∨ ¬ traceExporterOk cfg ext) ∧
      ∃ cs es, (∀ c ∈ cs, c.isTraceExporter = true) ∧ ∀ w,
        setupTraces cfg ext res w =
          .ret { w with calls := w.calls ++ cs, logs := w.logs ++ es }) ∨
    (cfg.OpenTelemetryTracesEnabled = true ∧ supportedExporterType cfg ∧
      traceExporterOk cfg ext ∧
      ∃ cs x, (∀ c ∈ cs, c.isTraceExporter = true) ∧ ∀ w,
        setupTraces cfg ext res w =
          .next (publishTraces res x { w with calls := w.calls ++ cs })) := by
  unfold setupTraces traceExporterSwitch supportedExporterType traceExporterOk
  cases cfg.OpenTelemetryTracesEnabled
  · left; simp
  · right
    by_cases h1 : cfg.OpenTelemetryExporterType = "otlp"
    · cases h : ext.otlptracegrpcNew (otlpOpts cfg)
      · left
        exact ⟨rfl, by simp [h1], [Call.otlptracegrpcNew 5 (otlpOpts cfg)], [_],
          by simp [Call.isTraceExporter],
          fun w => by simp [h1, goPair, World.call, World.logError]; rfl⟩
      · right
        exact ⟨rfl, by simp [h1], by simp [h1], [Call.otlptracegrpcNew 5 (otlpOpts cfg)], _,
          by simp [Call.isTraceExporter],
          fun w => by simp [h1, goPair, World.call]; rfl⟩
    · by_cases h2 : cfg.OpenTelemetryExporterType = "stdout"
      · cases h : ext.stdouttraceNew
        · left
          exact ⟨rfl, by simp [h2], [Call.stdouttraceNew], [_],
            by simp [Call.isTraceExporter],
            fun w => by simp [h1, h2, goPair, World.call, World.logError]; rfl⟩
        · right
          exact ⟨rfl, by simp [h2], by simp [h2], [Call.stdouttraceNew], _,
            by simp [Call.isTraceExporter],
            fun w => by simp [h1, h2, goPair, World.call]; rfl⟩
      · by_cases h3 : cfg.OpenTelemetryExporterType = "none"
        · right
          exact ⟨rfl, by simp [h3], by simp [h3], [], none, by simp,
            fun w => by simp [h1, h2, h3]⟩
        · left
          exact ⟨rfl, by simp [h1, h2, h3], [], [_], by simp,
            fun w => by simp [h1, h2, h3, World.logError]; rfl⟩

/-- The three ways the metric block ends; which one is decided by the
configuration and the constructor outcomes alone. -/
theorem setupMetrics_cases (cfg : Config) (ext : Externals) (res : Resource) :
    (cfg.OpenTelemetryMetricsEnabled = false ∧ ∀ w, setupMetrics cfg ext res w = .next w) ∨
    (cfg.OpenTelemetryMetricsEnabled = true ∧
      (¬ supportedExporterType cfg ∨ ¬ metricExporterOk cfg ext) ∧
      ∃ cs es, (∀ c ∈ cs, c.isMetricExporter = true) ∧ ∀ w,
        setupMetrics cfg ext res w =
          .ret { w with calls := w.calls ++ cs, logs := w.logs ++ es }) ∨
    (cfg.OpenTelemetryMetricsEnabled = true ∧ supportedExporterType cfg ∧
      metricExporterOk cfg ext ∧
      ∃ cs x, (∀ c ∈ cs, c.isMetricExporter = true) ∧ ∀ w,
        setupMetrics cfg ext res w =
          .next (publishMetrics ext res x { w with calls := w.calls ++ cs })) := by
  unfold setupMetrics metricExporterSwitch supportedExporterType metricExporterOk
  cases cfg.OpenTelemetryMetricsEnabled
  · left; simp
  · right
    by_cases h1 : cfg.OpenTelemetryExporterType = "otlp"
    · cases h : ext.otlpmetricgrpcNew (otlpOpts cfg)
      · left
        exact ⟨rfl, by simp [h1], [Call.otlpmetricgrpcNew 5 (otlpOpts cfg)], [_],
          by simp [Call.isMetricExporter],
          fun w => by simp [h1, goPair, World.call, World.logError]; rfl⟩
      · right
        exact ⟨rfl, by simp [h1], by simp [h1], [Call.otlpmetricgrpcNew 5 (otlpOpts cfg)], _,
          by simp [Call.isMetricExporter],
          fun w => by simp [h1, goPair, World.call]; rfl⟩
    · by_cases h2 : cfg.OpenTelemetryExporterType = "stdout"
      · cases h : ext.stdoutmetricNew
        · left
          exact ⟨rfl, by simp [h2], [Call.stdoutmetricNew], [_],
            by simp [Call.isMetricExporter],
            fun w => by simp [h1, h2, goPair, World.call, World.logError]; rfl⟩
        · right
          exact ⟨rfl, by simp [h2], by simp [h2], [Call.stdoutmetricNew], _,
            by simp [Call.isMetricExporter],
            fun w => by simp [h1, h2, goPair, World.call]; rfl⟩
      · by_cases h3 : cfg.OpenTelemetryExporterType = "none"
        · right
          exact ⟨rfl, by simp [h3], by simp [h3], [], none, by simp,
            fun w => by simp [h1, h2, h3]⟩
        · left
          exact ⟨rfl, by simp [h1, h2, h3], [], [_], by simp,
            fun w => by simp [h1, h2, h3, World.logError]; rfl⟩

theorem isTraceExporter_classes (c : Call) (h : c.isTraceExporter = true) :
    c.isMetricExporter = false ∧ c.isProvider = false ∧ c.isInstrument = false ∧
      c.isResource = false ∧ c.isExporter = true := by
  cases c <;> simp_all [Call.isTraceExporter, Call.isMetricExporter, Call.isProvider,
    Call.isInstrument, Call.isResource, Call.isExporter]

theorem isMetricExporter_classes (c : Call) (h : c.isMetricExporter = true) :
    c.isTraceExporter = false ∧ c.isProvider = false ∧ c.isInstrument = false ∧
      c.isResource = false ∧ c.isExporter = true := by
  cases c <;> simp_all [Call.isTraceExporter, Call.isMetricExporter, Call.isProvider,
    Call.isInstrument, Call.isResource, Call.isExporter]

/-- The run of `setupOpenTelemetry` once the resource is built: the trace
block, then the metric block unless the trace block returned, then the final
log line unless the metric block returned. -/
theorem setupOpenTelemetry_of_resource (cfg : Config) (ext : Externals) (w : World)
    (res : Resource) (hon : cfg.OpenTelemetryEnabled = true)
    (hres : ext.resourceNew cfg.OpenTelemetryServiceName = .ok res) :
    setupOpenTelemetry cfg ext w = .ok
      (match setupTraces cfg ext res (w.call (.resourceNew cfg.OpenTelemetryServiceName)) with
        | .ret w1 => w1
        | .next w1 =>
          match setupMetrics cfg ext res w1 with
          | .ret w2 => w2
          | .next w2 => w2.logInfo "OpenTelemetry setup completed") := by
  simp only [setupOpenTelemetry, hon, hres]
  cases setupTraces cfg ext res (w.call (.resourceNew cfg.OpenTelemetryServiceName)) with
  | ret w1 => rfl
  | next w1 =>
    simp only [Bool.not_true, Bool.false_eq_true, if_false]
    cases setupMetrics cfg ext res w1 <;> rfl

/-- One run of `setupOpenTelemetry` returns normally and keeps a consistent
handle consistent. -/
theorem setupOpenTelemetry_consistent (cfg : Config) (ext : Externals) (w : World)
    (hc : Consistent w.Global.OpenTelemetry) :
    ∃ w', setupOpenTelemetry cfg ext w = .ok w' ∧ Consistent w'.Global.OpenTelemetry := by
  cases hon : cfg.OpenTelemetryEnabled
  · exact ⟨w, by simp [setupOpenTelemetry, hon], hc⟩
  · cases hres : ext.resourceNew cfg.OpenTelemetryServiceName with
    | error e =>
      exact ⟨(w.call (.resourceNew cfg.OpenTelemetryServiceName)).logError
        "failed to create OpenTelemetry resource" (some e),
        by simp [setupOpenTelemetry, hon, hres], hc⟩
    | ok res =>
      refine ⟨_, setupOpenTelemetry_of_resource cfg ext w res hon hres, ?_⟩
      rcases setupTraces_cases cfg ext res with
        ⟨_, eT⟩ | ⟨_, _, cs, es, _, eT⟩ | ⟨_, _, _, cs, x, _, eT⟩ <;>
      rcases setupMetrics_cases cfg ext res with
        ⟨_, eM⟩ | ⟨_, _, ds, fs, _, eM⟩ | ⟨_, _, _, ds, y, _, eM⟩ <;>
      simp only [eT, eM] <;>
      simp_all [Consistent, World.call, World.logInfo, publishTraces_Global,
        publishMetrics_Global]

/-- A finite sequence of runs returns normally and keeps a consistent handle
consistent. -/
theorem runs_consistent (steps : List (Config × Externals)) :
    ∀ w : World, Consistent w.Global.OpenTelemetry →
      ∃ w', runs steps w = .ok w' ∧ Consistent w'.Global.OpenTelemetry := by
  induction steps with
  | nil => exact fun w hc => ⟨w, rfl, hc⟩
  | cons step rest ih =>
    intro w hc
    obtain ⟨cfg, ext⟩ := step
    obtain ⟨w1, e1, hc1⟩ := setupOpenTelemetry_consistent cfg ext w hc
    obtain ⟨w2, e2, hc2⟩ := ih w1 hc1
    exact ⟨w2, by simp [runs, e1, e2], hc2⟩

/-! ## Returning and panicking -/

/-- The function `setupStatsd` panics when `statsd.New` returns an error. -/
theorem setupStatsd_panics (cfg : Config) (ext : Externals) (w : World) (e : String)
    (hon : cfg.StatsdEnabled = true)
    (herr : ext.statsdNew (cfg.StatsdHost ++ ":" ++ cfg.StatsdPort) = .error e) :
    setupStatsd cfg ext w = .error ("unable to initialize statsd. " ++ e) := by
  simp [setupStatsd, hon, herr]

/-- The function `setupNewrelic` panics when `newrelic.NewApplication` returns
an error. -/
theorem setupNewrelic_panics (cfg : Config) (ext : Externals) (w : World)
    (hon : cfg.NewRelicEnabled = true)
    (herr : ∀ c, ∃ e, ext.newrelicNewApplication c = .error e) :
    ∃ msg, setupNewrelic cfg ext w = .error msg := by
  obtain ⟨e, he⟩ := herr
    { AppName := cfg.NewRelicAppName
      License := cfg.NewRelicKey
      Enabled := true
      DistributedTracerEnabled := cfg.NewRelicDistributedTracingEnabled
      CrossApplicationTracerEnabled := !cfg.NewRelicDistributedTracingEnabled }
  exact ⟨"unable to initialize newrelic. " ++ e, by simp [setupNewrelic, hon, he]⟩

/-! ## The claims -/

/-- C1: with `telemetry.enabled = false`, `setupOpenTelemetry` returns in the
world it was called in: it makes no constructor call (no resource, exporter or
provider) and leaves every field of the handle unchanged, whatever the other
options are; started from the empty handle, the seven fields are absent
afterwards. -/
theorem setupOpenTelemetry_disabled (cfg : Config) (ext : Externals) (w : World)
    (hoff : cfg.OpenTelemetryEnabled = false) :
    ∃ w', setupOpenTelemetry cfg ext w = .ok w' ∧ w' = w ∧ w'.callsSince w = [] ∧
      (w.Global.OpenTelemetry = {} →
        w'.Global.OpenTelemetry.TracerProvider = none ∧
        w'.Global.OpenTelemetry.MeterProvider = none ∧
        w'.Global.OpenTelemetry.Tracer = none ∧
        w'.Global.OpenTelemetry.Meter = none ∧
        w'.Global.OpenTelemetry.EvalCounter = none ∧
        w'.Global.OpenTelemetry.RequestCounter = none ∧
        w'.Global.OpenTelemetry.RequestLatency = none) := by
  refine ⟨w, by simp [setupOpenTelemetry, hoff], rfl, by simp [World.callsSince], ?_⟩
  intro h
  simp [h]

/-- Witness of C1: the disabled configuration, run on a world whose handle is
empty. -/
theorem setupOpenTelemetry_disabled_witness :
    offConfig.OpenTelemetryEnabled = false ∧
    ∃ w', setupOpenTelemetry offConfig traceExporterFails {} = .ok w' ∧ w' = {} ∧
      w'.callsSince {} = [] ∧
      (({} : World).Global.OpenTelemetry = {} →
        w'.Global.OpenTelemetry.TracerProvider = none ∧
        w'.Global.OpenTelemetry.MeterProvider = none ∧
        w'.Global.OpenTelemetry.Tracer = none ∧
        w'.Global.OpenTelemetry.Meter = none ∧
        w'.Global.OpenTelemetry.EvalCounter = none ∧
        w'.Global.OpenTelemetry.RequestCounter = none ∧
        w'.Global.OpenTelemetry.RequestLatency = none) :=
  ⟨rfl, setupOpenTelemetry_disabled offConfig traceExporterFails {} rfl⟩

/-- C2: with telemetry, traces and metrics enabled and the exporter type
`none`, when the resource and the three instruments are created without
error, `setupOpenTelemetry` returns with all seven fields of the handle
present, whatever the handle held before; the providers stored and installed
have no span processor and no reader, and the calls made are the resource,
the two provider constructors and the three instrument creations: no exporter
constructor, no batch span processor, no periodic reader. -/
theorem setupOpenTelemetry_none (cfg : Config) (ext : Externals) (w : World) (res : Resource)
    (c1 c2 : Int64Counter) (c3 : Float64Histogram)
    (hon : cfg.OpenTelemetryEnabled = true)
    (htr : cfg.OpenTelemetryTracesEnabled = true)
    (hme : cfg.OpenTelemetryMetricsEnabled = true)
    (hty : cfg.OpenTelemetryExporterType = "none")
    (hres : ext.resourceNew cfg.OpenTelemetryServiceName = .ok res)
    (h1 : ext.Int64Counter { provider := { resource := res, readers := [] }, name := "flagr" }
      "flagr_eval_results" "A counter of eval results" = .ok c1)
    (h2 : ext.Int64Counter { provider := { resource := res, readers := [] }, name := "flagr" }
      "flagr_requests_total" "The total http requests received" = .ok c2)
    (h3 : ext.Float64Histogram { provider := { resource := res, readers := [] }, name := "flagr" }
      "flagr_requests_duration_seconds" "A histogram of latencies for requests received"
      = .ok c3) :
    ∃ w', setupOpenTelemetry cfg ext w = .ok w' ∧
      w'.Global.OpenTelemetry =
        { TracerProvider := some { resource := res, sampler := .AlwaysSample, spanProcessors := [] }
          MeterProvider := some { resource := res, readers := [] }
          Tracer := some
            { provider := { resource := res, sampler := .AlwaysSample, spanProcessors := [] }
              name := "flagr" }
          Meter := some { provider := { resource := res, readers := [] }, name := "flagr" }
          EvalCounter := some c1
          RequestCounter := some c2
          RequestLatency := some c3 } ∧
      w'.otel.tracerProvider =
        some { resource := res, sampler := .AlwaysSample, spanProcessors := [] } ∧
      w'.otel.meterProvider = some { resource := res, readers := [] } ∧
      w'.callsSince w =
        [Call.resourceNew cfg.OpenTelemetryServiceName,
         Call.NewTracerProvider res .AlwaysSample,
         Call.NewMeterProvider res [],
         Call.Int64Counter "flagr_eval_results" "A counter of eval results",
         Call.Int64Counter "flagr_requests_total" "The total http requests received",
         Call.Float64Histogram "flagr_requests_duration_seconds"
           "A histogram of latencies for requests received"] ∧
      (∀ c ∈ w'.callsSince w, c.isExporter = false) := by
  have e : setupOpenTelemetry cfg ext w = .ok
      ((publishMetrics ext res none
        (publishTraces res none (w.call (.resourceNew cfg.OpenTelemetryServiceName)))).logInfo
        "OpenTelemetry setup completed") := by
    simp [setupOpenTelemetry, hon, hres, setupTraces, setupMetrics, traceExporterSwitch,
      metricExporterSwitch, htr, hme, hty]
  refine ⟨_, e, ?_, ?_, ?_, ?_, ?_⟩
  · simp [World.logInfo, publishMetrics_Global, publishTraces_Global, meterProviderOf,
      tracerProviderOf, h1, h2, h3, assigned]
  · simp [World.logInfo, publishMetrics_otel, publishTraces_otel, tracerProviderOf]
  · simp [World.logInfo, publishMetrics_otel, meterProviderOf]
  · simp [World.logInfo, World.callsSince, publishMetrics_calls, publishTraces_calls,
      World.call, instrumentCalls]
  · simp [World.logInfo, World.callsSince, publishMetrics_calls, publishTraces_calls,
      World.call, instrumentCalls, Call.isExporter, Call.isTraceExporter,
      Call.isMetricExporter]

/-- Witness of C2: the exporter type `none` with every constructor succeeding,
run on a world whose handle is full. -/
theorem setupOpenTelemetry_none_witness :
    ∃ w', setupOpenTelemetry (otConfig true true "none") okExternals fullWorld = .ok w' ∧
      w'.Global.OpenTelemetry =
        { TracerProvider := some
            { resource := { attributes := [("service.name", "flagr")] }
              sampler := .AlwaysSample, spanProcessors := [] }
          MeterProvider := some
            { resource := { attributes := [("service.name", "flagr")] }, readers := [] }
          Tracer := some
            { provider :=
                { resource := { attributes := [("service.name", "flagr")] }
                  sampler := .AlwaysSample, spanProcessors := [] }
              name := "flagr" }
          Meter := some
            { provider :=
                { resource := { attributes := [("service.name", "flagr")] }, readers := [] }
              name := "flagr" }
          EvalCounter := some { handle := 18 }
          RequestCounter := some { handle := 20 }
          RequestLatency := some { handle := 31 } } ∧
      w'.otel.tracerProvider = some
        { resource := { attributes := [("service.name", "flagr")] }
          sampler := .AlwaysSample, spanProcessors := [] } ∧
      w'.otel.meterProvider = some
        { resource := { attributes := [("service.name", "flagr")] }, readers := [] } ∧
      w'.callsSince fullWorld =
        [Call.resourceNew "flagr",
         Call.NewTracerProvider { attributes := [("service.name", "flagr")] } .AlwaysSample,
         Call.NewMeterProvider { attributes := [("service.name", "flagr")] } [],
         Call.Int64Counter "flagr_eval_results" "A counter of eval results",
         Call.Int64Counter "flagr_requests_total" "The total http requests received",
         Call.Float64Histogram "flagr_requests_duration_seconds"
           "A histogram of latencies for requests received"] ∧
      (∀ c ∈ w'.callsSince fullWorld, c.isExporter = false) :=
  setupOpenTelemetry_none (otConfig true true "none") okExternals fullWorld
    { attributes := [("service.name", "flagr")] } { handle := 18 } { handle := 20 }
    { handle := 31 } rfl rfl rfl rfl rfl rfl rfl rfl

/-- C3: with telemetry enabled and an exporter type other than `otlp`,
`stdout` and `none`, for every combination of the two signal flags, every
constructor outcome and every prior world, `setupOpenTelemetry` returns
normally with `Global` (hence the handle) and the `otel` registries unchanged;
the only constructor called is `resource.New`, so no provider is built for
either signal; and when the resource is built and traces are enabled, the run
ends at the `default` case of the trace block: one line is logged and the
metric block is not run. -/
theorem setupOpenTelemetry_unsupported (cfg : Config) (ext : Externals) (w : World)
    (hon : cfg.OpenTelemetryEnabled = true)
    (h1 : cfg.OpenTelemetryExporterType ≠ "otlp")
    (h2 : cfg.OpenTelemetryExporterType ≠ "stdout")
    (h3 : cfg.OpenTelemetryExporterType ≠ "none") :
    ∃ w', setupOpenTelemetry cfg ext w = .ok w' ∧
      w'.Global.OpenTelemetry = w.Global.OpenTelemetry ∧
      w'.Global = w.Global ∧ w'.otel = w.otel ∧
      w'.callsSince w = [Call.resourceNew cfg.OpenTelemetryServiceName] ∧
      (∀ res, ext.resourceNew cfg.OpenTelemetryServiceName = .ok res →
        cfg.OpenTelemetryTracesEnabled = true →
        setupTraces cfg ext res (w.call (.resourceNew cfg.OpenTelemetryServiceName)) = .ret w' ∧
        w'.logs = w.logs ++
          [⟨.error, "unsupported OpenTelemetry exporter type: " ++ cfg.OpenTelemetryExporterType,
            none⟩]) := by
  simp only [setupOpenTelemetry, hon, setupTraces, setupMetrics, traceExporterSwitch,
    metricExporterSwitch, h1, h2, h3]
  cases ext.resourceNew cfg.OpenTelemetryServiceName <;>
  cases cfg.OpenTelemetryTracesEnabled <;>
  cases cfg.OpenTelemetryMetricsEnabled <;>
  simp [World.call, World.logError, World.logInfo, World.callsSince]

/-- Witness of C3: the exporter type `jaeger` with both signals enabled, run
on a world whose handle is full. -/
theorem setupOpenTelemetry_unsupported_witness :
    ∃ w', setupOpenTelemetry (otConfig true true "jaeger") okExternals fullWorld = .ok w' ∧
      w'.Global.OpenTelemetry = fullWorld.Global.OpenTelemetry ∧
      w'.Global = fullWorld.Global ∧ w'.otel = fullWorld.otel ∧
      w'.callsSince fullWorld = [Call.resourceNew "flagr"] ∧
      (∀ res, okExternals.resourceNew "flagr" = .ok res →
        (otConfig true true "jaeger").OpenTelemetryTracesEnabled = true →
        setupTraces (otConfig true true "jaeger") okExternals res
          (fullWorld.call (.resourceNew "flagr")) = .ret w' ∧
        w'.logs = fullWorld.logs ++
          [⟨.error, "unsupported OpenTelemetry exporter type: " ++ "jaeger", none⟩]) :=
  setupOpenTelemetry_unsupported (otConfig true true "jaeger") okExternals fullWorld rfl
    (by decide) (by decide) (by decide)

/-- C4, the claim refuted: under `otlp` with telemetry, traces and metrics
enabled, the resource built, the trace-exporter constructor failing and the
metric-exporter constructor succeeding, `setupOpenTelemetry` returns with
neither `MeterProvider` nor `Meter` published and no instrument creation
attempted. -/
theorem setupOpenTelemetry_exporter_error_counterexample :
    (otConfig true true "otlp").OpenTelemetryEnabled = true ∧
    (otConfig true true "otlp").OpenTelemetryTracesEnabled = true ∧
    (otConfig true true "otlp").OpenTelemetryMetricsEnabled = true ∧
    (otConfig true true "otlp").OpenTelemetryExporterType = "otlp" ∧
    traceExporterFails.resourceNew "flagr" = .ok { attributes := [("service.name", "flagr")] } ∧
    traceExporterFails.otlptracegrpcNew (otlpOpts (otConfig true true "otlp")) =
      .error "context deadline exceeded" ∧
    traceExporterFails.otlpmetricgrpcNew (otlpOpts (otConfig true true "otlp")) =
      .ok { handle := 3 } ∧
    ∃ w', setupOpenTelemetry (otConfig true true "otlp") traceExporterFails {} = .ok w' ∧
      w'.Global.OpenTelemetry.TracerProvider = none ∧
      w'.Global.OpenTelemetry.MeterProvider = none ∧
      w'.Global.OpenTelemetry.Meter = none ∧
      (w'.callsSince {}).filter Call.isInstrument = [] ∧
      w'.calls =
        [Call.resourceNew "flagr",
         Call.otlptracegrpcNew 5
           [GrpcOption.WithEndpoint "localhost:4317", GrpcOption.WithInsecure]] :=
  ⟨rfl, rfl, rfl, rfl, rfl, rfl, rfl, _, rfl, rfl, rfl, rfl, rfl, rfl⟩

/-- C4, amended: with telemetry, traces and metrics enabled and the resource
built, a failure of the trace-exporter constructor (`otlp` or `stdout`) ends
the whole run: `Global` and the `otel` registries are unchanged, so no trace
provider and no `MeterProvider` or `Meter` is published, and no metric
exporter, provider or instrument is constructed. A failure is confined to its
own signal only in the other order: when the trace exporter is built and the
metric-exporter constructor fails, `TracerProvider` and `Tracer` are published
and the five metric fields keep their prior values. -/
theorem setupOpenTelemetry_exporter_error (cfg : Config) (ext : Externals) (w : World)
    (res : Resource)
    (hon : cfg.OpenTelemetryEnabled = true)
    (htr : cfg.OpenTelemetryTracesEnabled = true)
    (hme : cfg.OpenTelemetryMetricsEnabled = true)
    (hres : ext.resourceNew cfg.OpenTelemetryServiceName = .ok res) :
    (∀ e,
      ((cfg.OpenTelemetryExporterType = "otlp" ∧
          ext.otlptracegrpcNew (otlpOpts cfg) = .error e) ∨
        (cfg.OpenTelemetryExporterType = "stdout" ∧ ext.stdouttraceNew = .error e)) →
      ∃ w', setupOpenTelemetry cfg ext w = .ok w' ∧
        w'.Global = w.Global ∧ w'.otel = w.otel ∧
        w'.Global.OpenTelemetry.TracerProvider = w.Global.OpenTelemetry.TracerProvider ∧
        w'.Global.OpenTelemetry.MeterProvider = w.Global.OpenTelemetry.MeterProvider ∧
        w'.Global.OpenTelemetry.Meter = w.Global.OpenTelemetry.Meter ∧
        (∀ c ∈ w'.callsSince w,
          c.isMetricExporter = false ∧ c.isProvider = false ∧ c.isInstrument = false) ∧
        w'.logs = w.logs ++
          [⟨.error, "failed to create OpenTelemetry trace exporter", some e⟩]) ∧
    (∀ x e,
      ((cfg.OpenTelemetryExporterType = "otlp" ∧
          ext.otlptracegrpcNew (otlpOpts cfg) = .ok x ∧
          ext.otlpmetricgrpcNew (otlpOpts cfg) = .error e) ∨
        (cfg.OpenTelemetryExporterType = "stdout" ∧ ext.stdouttraceNew = .ok x ∧
          ext.stdoutmetricNew = .error e)) →
      ∃ w', setupOpenTelemetry cfg ext w = .ok w' ∧
        w'.Global.OpenTelemetry.TracerProvider = some
          { resource := res, sampler := .AlwaysSample
            spanProcessors := [SpanProcessor.batch x] } ∧
        w'.Global.OpenTelemetry.Tracer = some
          { provider :=
              { resource := res, sampler := .AlwaysSample
                spanProcessors := [SpanProcessor.batch x] }
            name := "flagr" } ∧
        w'.Global.OpenTelemetry.MeterProvider = w.Global.OpenTelemetry.MeterProvider ∧
        w'.Global.OpenTelemetry.Meter = w.Global.OpenTelemetry.Meter ∧
        w'.Global.OpenTelemetry.EvalCounter = w.Global.OpenTelemetry.EvalCounter ∧
        w'.Global.OpenTelemetry.RequestCounter = w.Global.OpenTelemetry.RequestCounter ∧
        w'.Global.OpenTelemetry.RequestLatency = w.Global.OpenTelemetry.RequestLatency ∧
        w'.otel.meterProvider = w.otel.meterProvider ∧
        (∀ c ∈ w'.callsSince w, c.isInstrument = false) ∧
        w'.logs = w.logs ++
          [⟨.error, "failed to create OpenTelemetry metric exporter", some e⟩]) := by
  constructor
  · rintro e (⟨hty, he⟩ | ⟨hty, he⟩) <;>
    simp [setupOpenTelemetry, hon, htr, hres, setupTraces, traceExporterSwitch, hty, he, goPair,
      World.call, World.logError, World.callsSince, Call.isMetricExporter, Call.isProvider,
      Call.isInstrument]
  · rintro x e (⟨hty, hx, he⟩ | ⟨hty, hx, he⟩) <;>
    simp [setupOpenTelemetry, hon, htr, hme, hres, setupTraces, setupMetrics,
      traceExporterSwitch, metricExporterSwitch, hty, hx, he, goPair,
      World.call, World.logError, World.callsSince, publishTraces_Global, publishTraces_otel,
      publishTraces_calls, publishTraces_logs, tracerProviderOf, Call.isInstrument]

/-- Witness of C4, amended: the trace exporter fails under `otlp`, run on a
world whose handle is full. -/
theorem setupOpenTelemetry_exporter_error_witness :
    ∃ w', setupOpenTelemetry (otConfig true true "otlp") traceExporterFails fullWorld = .ok w' ∧
      w'.Global = fullWorld.Global ∧ w'.otel = fullWorld.otel ∧
      w'.Global.OpenTelemetry.TracerProvider = fullWorld.Global.OpenTelemetry.TracerProvider ∧
      w'.Global.OpenTelemetry.MeterProvider = fullWorld.Global.OpenTelemetry.MeterProvider ∧
      w'.Global.OpenTelemetry.Meter = fullWorld.Global.OpenTelemetry.Meter ∧
      (∀ c ∈ w'.callsSince fullWorld,
        c.isMetricExporter = false ∧ c.isProvider = false ∧ c.isInstrument = false) ∧
      w'.logs = fullWorld.logs ++
        [⟨.error, "failed to create OpenTelemetry trace exporter",
          some "context deadline exceeded"⟩] :=
  (setupOpenTelemetry_exporter_error (otConfig true true "otlp") traceExporterFails fullWorld
    { attributes := [("service.name", "flagr")] } rfl rfl rfl rfl).1
    "context deadline exceeded" (Or.inl ⟨rfl, rfl⟩)

/-- C5: a run from the empty handle that reaches the instrument creations
(telemetry and metrics enabled, a supported exporter type, the resource and
the exporter of every enabled signal built without error) returns with
`MeterProvider` and `Meter` present and makes exactly the three instrument
creations, in order; each of `EvalCounter`, `RequestCounter` and
`RequestLatency` is afterwards the result of its own creation, present when
that creation succeeded and absent when it failed, for every one of the eight
combinations of outcomes. -/
theorem setupOpenTelemetry_instruments (cfg : Config) (ext : Externals) (w : World)
    (res : Resource)
    (hempty : w.Global.OpenTelemetry = {})
    (hon : cfg.OpenTelemetryEnabled = true)
    (hme : cfg.OpenTelemetryMetricsEnabled = true)
    (hres : ext.resourceNew cfg.OpenTelemetryServiceName = .ok res)
    (hty : supportedExporterType cfg)
    (hT : cfg.OpenTelemetryTracesEnabled = true → traceExporterOk cfg ext)
    (hM : metricExporterOk cfg ext) :
    ∃ w' mp, setupOpenTelemetry cfg ext w = .ok w' ∧
      w'.Global.OpenTelemetry.MeterProvider = some mp ∧
      w'.Global.OpenTelemetry.Meter = some { provider := mp, name := "flagr" } ∧
      w'.Global.OpenTelemetry.EvalCounter =
        (ext.Int64Counter { provider := mp, name := "flagr" }
          "flagr_eval_results" "A counter of eval results").toOption ∧
      w'.Global.OpenTelemetry.RequestCounter =
        (ext.Int64Counter { provider := mp, name := "flagr" }
          "flagr_requests_total" "The total http requests received").toOption ∧
      w'.Global.OpenTelemetry.RequestLatency =
        (ext.Float64Histogram { provider := mp, name := "flagr" }
          "flagr_requests_duration_seconds"
          "A histogram of latencies for requests received").toOption ∧
      (w'.callsSince w).filter Call.isInstrument =
        [Call.Int64Counter "flagr_eval_results" "A counter of eval results",
         Call.Int64Counter "flagr_requests_total" "The total http requests received",
         Call.Float64Histogram "flagr_requests_duration_seconds"
           "A histogram of latencies for requests received"] := by
  rcases setupTraces_cases cfg ext res with
    ⟨hT', eT⟩ | ⟨hT', hnT, cs, es, hcs, eT⟩ | ⟨hT', hsT, hoT, cs, (_ | x), hcs, eT⟩ <;>
  rcases setupMetrics_cases cfg ext res with
    ⟨hM', eM⟩ | ⟨hM', hnM, ds, fs, hds, eM⟩ | ⟨hM', hsM, hoM, ds, (_ | y), hds, eM⟩ <;>
  first
  | exact absurd (hM'.symm.trans hme) (by decide)
  | exact absurd hty (hnT.resolve_right (not_not.mpr (hT hT')))
  | exact absurd hty (hnM.resolve_right (not_not.mpr hM))
  | (refine ⟨_, meterProviderOf res none, setupOpenTelemetry_of_resource cfg ext w res hon hres, ?_⟩
     simp only [eT, eM]
     try have hcs' : cs.filter Call.isInstrument = [] :=
       List.filter_eq_nil_iff.mpr fun c hc => by simp [(isTraceExporter_classes c (hcs c hc)).2.2.1]
     have hds' : ds.filter Call.isInstrument = [] :=
       List.filter_eq_nil_iff.mpr fun c hc => by simp [(isMetricExporter_classes c (hds c hc)).2.2.1]
     simp [World.call, World.logInfo, World.callsSince, publishTraces_Global,
       publishMetrics_Global, publishTraces_calls, publishMetrics_calls, instrumentCalls,
       hempty, assigned_none, List.filter_cons, Call.isInstrument, *]
     done)
  | (refine ⟨_, meterProviderOf res (some y), setupOpenTelemetry_of_resource cfg ext w res hon hres, ?_⟩
     simp only [eT, eM]
     try have hcs' : cs.filter Call.isInstrument = [] :=
       List.filter_eq_nil_iff.mpr fun c hc => by simp [(isTraceExporter_classes c (hcs c hc)).2.2.1]
     have hds' : ds.filter Call.isInstrument = [] :=
       List.filter_eq_nil_iff.mpr fun c hc => by simp [(isMetricExporter_classes c (hds c hc)).2.2.1]
     simp [World.call, World.logInfo, World.callsSince, publishTraces_Global,
       publishMetrics_Global, publishTraces_calls, publishMetrics_calls, instrumentCalls,
       hempty, assigned_none, List.filter_cons, Call.isInstrument, *])

/-- Witness of C5: the request counter fails and the other two creations
succeed, under `otlp` with both signals enabled, from the empty world. -/
theorem setupOpenTelemetry_instruments_witness :
    ∃ w' mp, setupOpenTelemetry (otConfig true true "otlp") requestCounterFails {} = .ok w' ∧
      w'.Global.OpenTelemetry.MeterProvider = some mp ∧
      w'.Global.OpenTelemetry.Meter = some { provider := mp, name := "flagr" } ∧
      w'.Global.OpenTelemetry.EvalCounter =
        (requestCounterFails.Int64Counter { provider := mp, name := "flagr" }
          "flagr_eval_results" "A counter of eval results").toOption ∧
      w'.Global.OpenTelemetry.RequestCounter =
        (requestCounterFails.Int64Counter { provider := mp, name := "flagr" }
          "flagr_requests_total" "The total http requests received").toOption ∧
      w'.Global.OpenTelemetry.RequestLatency =
        (requestCounterFails.Float64Histogram { provider := mp, name := "flagr" }
          "flagr_requests_duration_seconds"
          "A histogram of latencies for requests received").toOption ∧
      (w'.callsSince {}).filter Call.isInstrument =
        [Call.Int64Counter "flagr_eval_results" "A counter of eval results",
         Call.Int64Counter "flagr_requests_total" "The total http requests received",
         Call.Float64Histogram "flagr_requests_duration_seconds"
           "A histogram of latencies for requests received"] :=
  setupOpenTelemetry_instruments (otConfig true true "otlp") requestCounterFails {}
    { attributes := [("service.name", "flagr")] } rfl rfl rfl rfl (Or.inl rfl)
    (fun _ => ⟨fun _ => ⟨_, rfl⟩, fun _ => ⟨_, rfl⟩⟩)
    ⟨fun _ => ⟨_, rfl⟩, fun _ => ⟨_, rfl⟩⟩

/-- C6: with telemetry enabled, when `resource.New` returns an error,
`setupOpenTelemetry` returns early, whatever the exporter type, the signal
flags and the prior world: `Global` (hence every field of the handle) and the
`otel` registries are unchanged, the only constructor called is
`resource.New` (no exporter, no provider), and the error is logged. -/
theorem setupOpenTelemetry_resource_error (cfg : Config) (ext : Externals) (w : World)
    (e : String)
    (hon : cfg.OpenTelemetryEnabled = true)
    (hres : ext.resourceNew cfg.OpenTelemetryServiceName = .error e) :
    ∃ w', setupOpenTelemetry cfg ext w = .ok w' ∧
      w'.Global.OpenTelemetry = w.Global.OpenTelemetry ∧
      w'.Global = w.Global ∧ w'.otel = w.otel ∧
      w'.callsSince w = [Call.resourceNew cfg.OpenTelemetryServiceName] ∧
      (∀ c ∈ w'.callsSince w, c.isExporter = false ∧ c.isProvider = false) ∧
      w'.logs = w.logs ++ [⟨.error, "failed to create OpenTelemetry resource", some e⟩] := by
  simp [setupOpenTelemetry, hon, hres, World.call, World.logError, World.callsSince,
    Call.isExporter, Call.isTraceExporter, Call.isMetricExporter, Call.isProvider]

/-- Witness of C6: `resource.New` fails under the exporter type `otlp` with
both signals enabled, run on a world whose handle is full. -/
theorem setupOpenTelemetry_resource_error_witness :
    ∃ w', setupOpenTelemetry (otConfig true true "otlp") resourceFails fullWorld = .ok w' ∧
      w'.Global.OpenTelemetry = fullWorld.Global.OpenTelemetry ∧
      w'.Global = fullWorld.Global ∧ w'.otel = fullWorld.otel ∧
      w'.callsSince fullWorld = [Call.resourceNew "flagr"] ∧
      (∀ c ∈ w'.callsSince fullWorld, c.isExporter = false ∧ c.isProvider = false) ∧
      w'.logs = fullWorld.logs ++
        [⟨.error, "failed to create OpenTelemetry resource", some "invalid attribute"⟩] :=
  setupOpenTelemetry_resource_error (otConfig true true "otlp") resourceFails fullWorld
    "invalid attribute" rfl rfl

/-- C7: with telemetry enabled, each signal flag gates its own signal only.
When traces are disabled `TracerProvider` and `Tracer` keep their prior values
and no trace-exporter constructor is called; when metrics are disabled
`MeterProvider`, `Meter` and the three instruments keep their prior values and
no metric-exporter constructor is called; and with a supported exporter type,
the resource built and the exporter of every enabled signal constructed
without error, the provider of each enabled signal is present afterwards,
whether or not the other signal is enabled. -/
theorem setupOpenTelemetry_signal_gates (cfg : Config) (ext : Externals) (w : World)
    (hon : cfg.OpenTelemetryEnabled = true) :
    ∃ w', setupOpenTelemetry cfg ext w = .ok w' ∧
      (cfg.OpenTelemetryTracesEnabled = false →
        w'.Global.OpenTelemetry.TracerProvider = w.Global.OpenTelemetry.TracerProvider ∧
        w'.Global.OpenTelemetry.Tracer = w.Global.OpenTelemetry.Tracer ∧
        ∀ c ∈ w'.callsSince w, c.isTraceExporter = false) ∧
      (cfg.OpenTelemetryMetricsEnabled = false →
        w'.Global.OpenTelemetry.MeterProvider = w.Global.OpenTelemetry.MeterProvider ∧
        w'.Global.OpenTelemetry.Meter = w.Global.OpenTelemetry.Meter ∧
        w'.Global.OpenTelemetry.EvalCounter = w.Global.OpenTelemetry.EvalCounter ∧
        w'.Global.OpenTelemetry.RequestCounter = w.Global.OpenTelemetry.RequestCounter ∧
        w'.Global.OpenTelemetry.RequestLatency = w.Global.OpenTelemetry.RequestLatency ∧
        ∀ c ∈ w'.callsSince w, c.isMetricExporter = false) ∧
      (supportedExporterType cfg →
        (∃ res, ext.resourceNew cfg.OpenTelemetryServiceName = .ok res) →
        (cfg.OpenTelemetryTracesEnabled = true → traceExporterOk cfg ext) →
        (cfg.OpenTelemetryMetricsEnabled = true → metricExporterOk cfg ext) →
        (cfg.OpenTelemetryTracesEnabled = true →
          w'.Global.OpenTelemetry.TracerProvider.isSome = true) ∧
        (cfg.OpenTelemetryMetricsEnabled = true →
          w'.Global.OpenTelemetry.MeterProvider.isSome = true)) := by
  cases hres : ext.resourceNew cfg.OpenTelemetryServiceName with
  | error e =>
    refine ⟨(w.call (.resourceNew cfg.OpenTelemetryServiceName)).logError
      "failed to create OpenTelemetry resource" (some e),
      by simp [setupOpenTelemetry, hon, hres], ?_⟩
    simp [World.call, World.logError, World.callsSince, Call.isTraceExporter,
      Call.isMetricExporter]
  | ok res =>
    refine ⟨_, setupOpenTelemetry_of_resource cfg ext w res hon hres, ?_⟩
    rcases setupTraces_cases cfg ext res with
      ⟨hT, eT⟩ | ⟨hT, hnT, cs, es, hcs, eT⟩ | ⟨hT, hsT, hoT, cs, (_ | x), hcs, eT⟩ <;>
    rcases setupMetrics_cases cfg ext res with
      ⟨hM, eM⟩ | ⟨hM, hnM, ds, fs, hds, eM⟩ | ⟨hM, hsM, hoM, ds, (_ | y), hds, eM⟩ <;>
    simp only [eT, eM] <;>
    (try have hcs' : ∀ c ∈ cs, c.isMetricExporter = false :=
      fun c hc => (isTraceExporter_classes c (hcs c hc)).1) <;>
    (try have hds' : ∀ c ∈ ds, c.isTraceExporter = false :=
      fun c hc => (isMetricExporter_classes c (hds c hc)).1) <;>
    refine ⟨fun hf1 => ?_, fun hf2 => ?_, fun h1 _ h2 h3 => ⟨fun ht => ?_, fun hm => ?_⟩⟩ <;>
    first
    | exact absurd (hT.symm.trans hf1) (by decide)
    | exact absurd (hM.symm.trans hf2) (by decide)
    | exact absurd (ht.symm.trans hT) (by decide)
    | exact absurd (hm.symm.trans hM) (by decide)
    | exact absurd h1 (hnT.resolve_right (not_not.mpr (h2 hT)))
    | exact absurd h1 (hnM.resolve_right (not_not.mpr (h3 hM)))
    | (simp [World.call, World.logInfo, publishTraces_Global, publishMetrics_Global]; done)
    | (simp only [World.call, World.logInfo, World.callsSince, publishTraces_Global,
        publishMetrics_Global, publishTraces_calls, publishMetrics_calls, instrumentCalls,
        List.append_assoc, List.drop_left, List.forall_mem_append, List.forall_mem_cons,
        List.cons_append, List.nil_append, List.append_nil, List.forall_mem_nil, true_and,
        and_true]
       repeat' apply And.intro
       all_goals first | exact hcs' | exact hds' | rfl | exact fun _ h => absurd h (List.not_mem_nil _))

/-- Witness of C7: metrics enabled and traces disabled under `stdout`, run on a
world whose handle is full. -/
theorem setupOpenTelemetry_signal_gates_witness :
    ∃ w', setupOpenTelemetry (otConfig false true "stdout") okExternals fullWorld = .ok w' ∧
      ((otConfig false true "stdout").OpenTelemetryTracesEnabled = false →
        w'.Global.OpenTelemetry.TracerProvider = fullWorld.Global.OpenTelemetry.TracerProvider ∧
        w'.Global.OpenTelemetry.Tracer = fullWorld.Global.OpenTelemetry.Tracer ∧
        ∀ c ∈ w'.callsSince fullWorld, c.isTraceExporter = false) ∧
      ((otConfig false true "stdout").OpenTelemetryMetricsEnabled = false →
        w'.Global.OpenTelemetry.MeterProvider = fullWorld.Global.OpenTelemetry.MeterProvider ∧
        w'.Global.OpenTelemetry.Meter = fullWorld.Global.OpenTelemetry.Meter ∧
        w'.Global.OpenTelemetry.EvalCounter = fullWorld.Global.OpenTelemetry.EvalCounter ∧
        w'.Global.OpenTelemetry.RequestCounter =
          fullWorld.Global.OpenTelemetry.RequestCounter ∧
        w'.Global.OpenTelemetry.RequestLatency =
          fullWorld.Global.OpenTelemetry.RequestLatency ∧
        ∀ c ∈ w'.callsSince fullWorld, c.isMetricExporter = false) ∧
      (supportedExporterType (otConfig false true "stdout") →
        (∃ res, okExternals.resourceNew
          (otConfig false true "stdout").OpenTelemetryServiceName = .ok res) →
        ((otConfig false true "stdout").OpenTelemetryTracesEnabled = true →
          traceExporterOk (otConfig false true "stdout") okExternals) →
        ((otConfig false true "stdout").OpenTelemetryMetricsEnabled = true →
          metricExporterOk (otConfig false true "stdout") okExternals) →
        ((otConfig false true "stdout").OpenTelemetryTracesEnabled = true →
          w'.Global.OpenTelemetry.TracerProvider.isSome = true) ∧
        ((otConfig false true "stdout").OpenTelemetryMetricsEnabled = true →
          w'.Global.OpenTelemetry.MeterProvider.isSome = true)) :=
  setupOpenTelemetry_signal_gates (otConfig false true "stdout") okExternals fullWorld rfl

/-- C8, the claim refuted, at two inputs with telemetry enabled, the exporter
type `none` and the resource built. With traces disabled, the run on a full
handle keeps the prior `TracerProvider`, which the run from the empty handle
does not have. With both signals enabled and the creation of the request
counter failing, the run on a full handle keeps the prior `RequestCounter`,
which the run from the empty handle does not have. -/
theorem setupOpenTelemetry_rerun_counterexample :
    (supportedExporterType (otConfig false true "none") ∧
      okExternals.resourceNew "flagr" = .ok { attributes := [("service.name", "flagr")] } ∧
      traceExporterOk (otConfig false true "none") okExternals ∧
      metricExporterOk (otConfig false true "none") okExternals ∧
      ∃ w1 w2,
        setupOpenTelemetry (otConfig false true "none") okExternals fullWorld = .ok w1 ∧
        setupOpenTelemetry (otConfig false true "none") okExternals (fullWorld.setOT {})
          = .ok w2 ∧
        w1.Global.OpenTelemetry.TracerProvider = fullHandle.TracerProvider ∧
        w2.Global.OpenTelemetry.TracerProvider = none ∧
        w1.Global.OpenTelemetry ≠ w2.Global.OpenTelemetry) ∧
    (supportedExporterType (otConfig true true "none") ∧
      requestCounterFails.resourceNew "flagr" =
        .ok { attributes := [("service.name", "flagr")] } ∧
      traceExporterOk (otConfig true true "none") requestCounterFails ∧
      metricExporterOk (otConfig true true "none") requestCounterFails ∧
      ∃ w1 w2,
        setupOpenTelemetry (otConfig true true "none") requestCounterFails fullWorld = .ok w1 ∧
        setupOpenTelemetry (otConfig true true "none") requestCounterFails (fullWorld.setOT {})
          = .ok w2 ∧
        w1.Global.OpenTelemetry.RequestCounter = some { handle := 101 } ∧
        w2.Global.OpenTelemetry.RequestCounter = none ∧
        w1.Global.OpenTelemetry ≠ w2.Global.OpenTelemetry) := by
  refine ⟨⟨Or.inr (Or.inr rfl), rfl, ⟨fun h => ?_, fun h => ?_⟩, ⟨fun h => ?_, fun h => ?_⟩,
      _, _, rfl, rfl, rfl, rfl, fun h => ?_⟩,
    ⟨Or.inr (Or.inr rfl), rfl, ⟨fun h => ?_, fun h => ?_⟩, ⟨fun h => ?_, fun h => ?_⟩,
      _, _, rfl, rfl, rfl, rfl, fun h => ?_⟩⟩
  · exact ⟨_, rfl⟩
  · exact ⟨_, rfl⟩
  · exact ⟨_, rfl⟩
  · exact ⟨_, rfl⟩
  · exact absurd (congrArg openTelemetryMetrics.TracerProvider h) (by decide)
  · exact ⟨_, rfl⟩
  · exact ⟨_, rfl⟩
  · exact ⟨_, rfl⟩
  · exact ⟨_, rfl⟩
  · exact absurd (congrArg openTelemetryMetrics.RequestCounter h) (by decide)

/-- C8, amended: with telemetry enabled, a supported exporter type, the
resource built and the exporter of every enabled signal constructed without
error, a run on any prior handle and the same run from the empty handle both
return, and they agree on every field the run writes: for an enabled signal
the provider and its tracer or meter, and each instrument whose creation
succeeded. The fields of a disabled signal keep their prior values. Hence the
two handles are equal when traces and metrics are both enabled and the three
instrument creations succeed. -/
theorem setupOpenTelemetry_rerun (cfg : Config) (ext : Externals) (w : World)
    (hon : cfg.OpenTelemetryEnabled = true)
    (hty : supportedExporterType cfg)
    (hres : ∃ res, ext.resourceNew cfg.OpenTelemetryServiceName = .ok res)
    (hT : cfg.OpenTelemetryTracesEnabled = true → traceExporterOk cfg ext)
    (hM : cfg.OpenTelemetryMetricsEnabled = true → metricExporterOk cfg ext) :
    ∃ w1 w2, setupOpenTelemetry cfg ext w = .ok w1 ∧
      setupOpenTelemetry cfg ext (w.setOT {}) = .ok w2 ∧
      (cfg.OpenTelemetryTracesEnabled = true →
        w1.Global.OpenTelemetry.TracerProvider = w2.Global.OpenTelemetry.TracerProvider ∧
        w1.Global.OpenTelemetry.Tracer = w2.Global.OpenTelemetry.Tracer) ∧
      (cfg.OpenTelemetryTracesEnabled = false →
        w1.Global.OpenTelemetry.TracerProvider = w.Global.OpenTelemetry.TracerProvider ∧
        w1.Global.OpenTelemetry.Tracer = w.Global.OpenTelemetry.Tracer) ∧
      (cfg.OpenTelemetryMetricsEnabled = true →
        w1.Global.OpenTelemetry.MeterProvider = w2.Global.OpenTelemetry.MeterProvider ∧
        w1.Global.OpenTelemetry.Meter = w2.Global.OpenTelemetry.Meter ∧
        ∀ m, w1.Global.OpenTelemetry.Meter = some m →
          ((∃ c, ext.Int64Counter m "flagr_eval_results" "A counter of eval results" = .ok c) →
            w1.Global.OpenTelemetry.EvalCounter = w2.Global.OpenTelemetry.EvalCounter) ∧
          ((∃ c, ext.Int64Counter m "flagr_requests_total"
              "The total http requests received" = .ok c) →
            w1.Global.OpenTelemetry.RequestCounter = w2.Global.OpenTelemetry.RequestCounter) ∧
          ((∃ c, ext.Float64Histogram m "flagr_requests_duration_seconds"
              "A histogram of latencies for requests received" = .ok c) →
            w1.Global.OpenTelemetry.RequestLatency =
              w2.Global.OpenTelemetry.RequestLatency)) ∧
      (cfg.OpenTelemetryMetricsEnabled = false →
        w1.Global.OpenTelemetry.MeterProvider = w.Global.OpenTelemetry.MeterProvider ∧
        w1.Global.OpenTelemetry.Meter = w.Global.OpenTelemetry.Meter ∧
        w1.Global.OpenTelemetry.EvalCounter = w.Global.OpenTelemetry.EvalCounter ∧
        w1.Global.OpenTelemetry.RequestCounter = w.Global.OpenTelemetry.RequestCounter ∧
        w1.Global.OpenTelemetry.RequestLatency = w.Global.OpenTelemetry.RequestLatency) ∧
      (cfg.OpenTelemetryTracesEnabled = true → cfg.OpenTelemetryMetricsEnabled = true →
        (∀ m, w1.Global.OpenTelemetry.Meter = some m →
          (∃ c, ext.Int64Counter m "flagr_eval_results" "A counter of eval results" = .ok c) ∧
          (∃ c, ext.Int64Counter m "flagr_requests_total"
            "The total http requests received" = .ok c) ∧
          (∃ c, ext.Float64Histogram m "flagr_requests_duration_seconds"
            "A histogram of latencies for requests received" = .ok c)) →
        w1.Global.OpenTelemetry = w2.Global.OpenTelemetry) := by
  obtain ⟨res, hres⟩ := hres
  refine ⟨_, _, setupOpenTelemetry_of_resource cfg ext w res hon hres,
    setupOpenTelemetry_of_resource cfg ext (w.setOT {}) res hon hres, ?_⟩
  rcases setupTraces_cases cfg ext res with
    ⟨hT', eT⟩ | ⟨hT', hnT, cs, es, hcs, eT⟩ | ⟨hT', hsT, hoT, cs, x, hcs, eT⟩ <;>
  rcases setupMetrics_cases cfg ext res with
    ⟨hM', eM⟩ | ⟨hM', hnM, ds, fs, hds, eM⟩ | ⟨hM', hsM, hoM, ds, y, hds, eM⟩ <;>
  first
  | exact absurd hty (hnT.resolve_right (not_not.mpr (hT hT')))
  | exact absurd hty (hnM.resolve_right (not_not.mpr (hM hM')))
  | (simp only [eT, eM]
     simp [World.call, World.logInfo, World.setOT, publishTraces_Global,
       publishMetrics_Global, hT', hM']
     done)
  | (simp only [eT, eM]
     simp [World.call, World.logInfo, World.setOT, publishTraces_Global,
       publishMetrics_Global, hT', hM']
     refine ⟨fun c h => ?_, fun c h => ?_, fun c h => ?_⟩
     · simp [h, assigned]
     · simp [h, assigned]
     · simp [h, assigned])
  | (simp only [eT, eM]
     simp [World.call, World.logInfo, World.setOT, publishTraces_Global,
       publishMetrics_Global, hT', hM']
     refine ⟨⟨fun c h => ?_, fun c h => ?_, fun c h => ?_⟩, ?_⟩
     · simp [h, assigned]
     · simp [h, assigned]
     · simp [h, assigned]
     · intro c1 h1 c2 h2 c3 h3
       simp [h1, h2, h3, assigned])

/-- Witness of C8, amended: every constructor succeeds under `otlp` with both
signals enabled; the run on a full handle and the run from the empty handle
end with the same handle. -/
theorem setupOpenTelemetry_rerun_witness :
    ∃ w1 w2, setupOpenTelemetry (otConfig true true "otlp") okExternals fullWorld = .ok w1 ∧
      setupOpenTelemetry (otConfig true true "otlp") okExternals (fullWorld.setOT {}) = .ok w2 ∧
      w1.Global.OpenTelemetry = w2.Global.OpenTelemetry := by
  obtain ⟨w1, w2, e1, e2, _, _, hm, _, h⟩ :=
    setupOpenTelemetry_rerun (otConfig true true "otlp") okExternals fullWorld rfl (Or.inl rfl)
      ⟨_, rfl⟩ (fun _ => ⟨fun _ => ⟨_, rfl⟩, fun _ => ⟨_, rfl⟩⟩)
      (fun _ => ⟨fun _ => ⟨_, rfl⟩, fun _ => ⟨_, rfl⟩⟩)
  exact ⟨w1, w2, e1, e2, h rfl rfl fun m _ => ⟨⟨_, rfl⟩, ⟨_, rfl⟩, ⟨_, rfl⟩⟩⟩

/-- C9, the claim refuted: Prometheus is enabled and `Global.Prometheus` is
empty, but the two counter names are already registered (the world is the
one an earlier enabled run from the empty world leaves, with
`Global.Prometheus` reset). `promauto.NewCounterVec` panics at the first
registration, and `EvalCounter` and `RequestCounter` are absent in the world
of the panic although `PrometheusEnabled` is true. -/
theorem setupPrometheus_fields_counterexample :
    ({ offConfig with PrometheusEnabled := true } : Config).PrometheusEnabled = true ∧
    ∃ w1 wp, setupPrometheus { offConfig with PrometheusEnabled := true } {} = .ok w1 ∧
      (w1.setProm {}).Global.Prometheus = {} ∧
      setupPrometheus { offConfig with PrometheusEnabled := true } (w1.setProm {}) =
        .error ("duplicate metrics collector registration attempted", wp) ∧
      wp.Global.Prometheus.EvalCounter = none ∧
      wp.Global.Prometheus.RequestCounter = none :=
  ⟨rfl, _, _, rfl, rfl, rfl, rfl, rfl⟩

/-- C9, amended: when `PrometheusEnabled` is false `setupPrometheus` returns
in the world it was called in, so every field of `Global.Prometheus`,
`ScrapePath` included, is unchanged. Started from an empty
`Global.Prometheus` with none of the names `flagr_eval_results`,
`flagr_requests_total` and `flagr_requests_buckets` registered with the
default registerer, `setupPrometheus` returns, and afterwards `EvalCounter`
and `RequestCounter` are present exactly when `PrometheusEnabled` is true and
`RequestHistogram` exactly when `PrometheusEnabled` and
`PrometheusIncludeLatencyHistogram` are both true. -/
theorem setupPrometheus_fields (cfg : Config) (w : World) :
    (cfg.PrometheusEnabled = false →
      setupPrometheus cfg w = .ok w) ∧
    (w.Global.Prometheus = {} →
      "flagr_eval_results" ∉ w.promRegistry →
      "flagr_requests_total" ∉ w.promRegistry →
      "flagr_requests_buckets" ∉ w.promRegistry →
      ∃ w', setupPrometheus cfg w = .ok w' ∧
        (w'.Global.Prometheus.EvalCounter.isSome = true ↔ cfg.PrometheusEnabled = true) ∧
        (w'.Global.Prometheus.RequestCounter.isSome = true ↔ cfg.PrometheusEnabled = true) ∧
        (w'.Global.Prometheus.RequestHistogram.isSome = true ↔
          (cfg.PrometheusEnabled = true ∧ cfg.PrometheusIncludeLatencyHistogram = true))) := by
  refine ⟨fun hoff => by simp [setupPrometheus, hoff], fun hempty h1 h2 h3 => ?_⟩
  cases he : cfg.PrometheusEnabled <;> cases hl : cfg.PrometheusIncludeLatencyHistogram <;>
  simp [setupPrometheus, he, hl, World.mustRegister, World.call, World.setProm, hempty, h1, h2,
    h3]

/-- Witness of C9, amended: Prometheus enabled without the latency histogram,
from the empty world, whose registry is empty. -/
theorem setupPrometheus_fields_witness :
    ∃ w', setupPrometheus { offConfig with PrometheusEnabled := true } {} = .ok w' ∧
      (w'.Global.Prometheus.EvalCounter.isSome = true ↔ true = true) ∧
      (w'.Global.Prometheus.RequestCounter.isSome = true ↔ true = true) ∧
      (w'.Global.Prometheus.RequestHistogram.isSome = true ↔ (true = true ∧ false = true)) :=
  (setupPrometheus_fields { offConfig with PrometheusEnabled := true } {}).2 rfl
    (by decide) (by decide) (by decide)

/-- C10: handle consistency is an invariant of `setupOpenTelemetry`. Started
from the empty handle, every finite sequence of runs, each under its own
configuration and its own constructor outcomes, returns normally in a world
whose handle has a tracer exactly when it has a trace provider, a meter
exactly when it has a meter provider, and each of the three instruments only
when it has a meter provider. -/
theorem setupOpenTelemetry_handle_invariant (steps : List (Config × Externals)) (w : World)
    (hempty : w.Global.OpenTelemetry = {}) :
    ∃ w', runs steps w = .ok w' ∧
      (w'.Global.OpenTelemetry.Tracer.isSome ↔ w'.Global.OpenTelemetry.TracerProvider.isSome) ∧
      (w'.Global.OpenTelemetry.Meter.isSome ↔ w'.Global.OpenTelemetry.MeterProvider.isSome) ∧
      (w'.Global.OpenTelemetry.EvalCounter.isSome →
        w'.Global.OpenTelemetry.MeterProvider.isSome) ∧
      (w'.Global.OpenTelemetry.RequestCounter.isSome →
        w'.Global.OpenTelemetry.MeterProvider.isSome) ∧
      (w'.Global.OpenTelemetry.RequestLatency.isSome →
        w'.Global.OpenTelemetry.MeterProvider.isSome) := by
  have hc : Consistent w.Global.OpenTelemetry := by simp [hempty, Consistent]
  obtain ⟨w', e, h⟩ := runs_consistent steps w hc
  exact ⟨w', e, h⟩

/-- Witness of C10: four runs from the empty world: every constructor
succeeds under `otlp`; then the trace exporter fails; then the request
counter fails with traces disabled; then telemetry is disabled. -/
theorem setupOpenTelemetry_handle_invariant_witness :
    ({} : World).Global.OpenTelemetry = {} ∧
    ∃ w', runs
        [(otConfig true true "otlp", okExternals),
         (otConfig true true "stdout", traceExporterFails),
         (otConfig false true "none", requestCounterFails),
         (offConfig, resourceFails)] {} = .ok w' ∧
      (w'.Global.OpenTelemetry.Tracer.isSome ↔ w'.Global.OpenTelemetry.TracerProvider.isSome) ∧
      (w'.Global.OpenTelemetry.Meter.isSome ↔ w'.Global.OpenTelemetry.MeterProvider.isSome) ∧
      (w'.Global.OpenTelemetry.EvalCounter.isSome →
        w'.Global.OpenTelemetry.MeterProvider.isSome) ∧
      (w'.Global.OpenTelemetry.RequestCounter.isSome →
        w'.Global.OpenTelemetry.MeterProvider.isSome) ∧
      (w'.Global.OpenTelemetry.RequestLatency.isSome →
        w'.Global.OpenTelemetry.MeterProvider.isSome) :=
  ⟨rfl, setupOpenTelemetry_handle_invariant _ {} rfl⟩

end OpenFlagr
